import Mathlib

/-!
Verification development for the objconv parsing core (`parse.go`).

The file shallowly embeds the `ValueParser` reference parser: a stack-based
state machine over reflected in-memory values.  Go's `reflect.Value` is
embedded as the inductive `RValue`; each `ValueParser` method becomes a Lean
function from parser state to `Option (result × new state)`, where `none`
models a Go panic (index out of range, wrong-kind reflect accessor, failed
type assertion).  Go `error` results are embedded as `Option String`
(`none` = nil error).

Modelling conventions, stated once:
* the Go slices `p.stack` and `p.ctx` store their top at the END; the Lean
  lists store the top at the HEAD (`push` is cons, `pop` is tail, the Go
  index `len-1` is `head?`) — an order-reversing but faithful representation;
* integer widths are collapsed (`Int8..Int64` to one `intV`, likewise
  `uintV`); the float64 payload of `floatV` is carried as an abstract `Int`
  token, since no claim depends on float arithmetic;
* a Go nil pointer / nil interface is a distinct constructor (`ptrNil`,
  `interfaceNil`), matching `reflect.Value.IsNil`;
* "implements the `error` interface" is modelled by the `errorV`
  constructor, `time.Time` by `timeV` and `time.Duration` by `durationV`
  (whose reflect kind is `int64`, so `reflect.Value.Int` succeeds on it).
-/

/-- Modelled from the spec: the closed type vocabulary (`Nil`, `Bool`, `Int`,
`Uint`, `Float`, `String`, `Bytes`, `Time`, `Duration`, `Error`, `Array`,
`Map`).  The enumeration's declaration is not under `src/`; only its use
sites in `parse.go` are.  Named `Ty` because `Type` is reserved in Lean. -/
inductive Ty where
  | Nil
  | Bool
  | Int
  | Uint
  | Float
  | String
  | Bytes
  | Time
  | Duration
  | Error
  | Array
  | Map
deriving DecidableEq

/-- Embedding of `reflect.Value` restricted to the shapes `parse.go`
inspects.  `sliceV`/`arrayV` carry whether the static element type is a
single byte (`v.Type().Elem().Kind() == reflect.Uint8`); `ptrV`, `funcV`,
`chanV` and `structV` carry the string `v.Type().String()` would print. -/
inductive RValue where
  | invalid
  | boolV (b : Bool)
  | intV (n : Int)
  | uintV (n : Nat)
  | floatV (x : Int)
  | stringV (s : String)
  | sliceV (elemUint8 : Bool) (xs : List RValue)
  | arrayV (elemUint8 : Bool) (xs : List RValue)
  | mapV (entries : List (RValue × RValue))
  | structV (tname : String) (fields : List (String × RValue))
  | ptrNil (tname : String)
  | ptrV (tname : String) (w : RValue)
  | interfaceNil
  | interfaceV (w : RValue)
  | timeV (t : Int)
  | durationV (n : Int)
  | errorV (msg : String)
  | funcV (tname : String)
  | chanV (tname : String)

/-- A Go `error` result: `none` is Go's nil error. -/
abbrev GoErr := Option String

/-- `reflect.Kind.String()` for the embedded value (used by
`reflect.Value.String`'s placeholder formatting). -/
def RValue.kindName : RValue → String
  | .invalid => "invalid"
  | .boolV _ => "bool"
  | .intV _ => "int"
  | .uintV _ => "uint"
  | .floatV _ => "float64"
  | .stringV _ => "string"
  | .sliceV _ _ => "slice"
  | .arrayV _ _ => "array"
  | .mapV _ => "map"
  | .structV _ _ => "struct"
  | .ptrNil _ => "ptr"
  | .ptrV _ _ => "ptr"
  | .interfaceNil => "interface"
  | .interfaceV _ => "interface"
  | .timeV _ => "struct"
  | .durationV _ => "int64"
  | .errorV _ => "struct"
  | .funcV _ => "func"
  | .chanV _ => "chan"

/-- `v.Type().String()`.  `ParseType` only consults it on the
unsupported-type path, reachable for `ptrNil`, `funcV` and `chanV` (which
carry their Go type name); the remaining lines are representative
placeholders. -/
def RValue.typeString : RValue → String
  | .ptrNil t => t
  | .ptrV t _ => t
  | .funcV t => t
  | .chanV t => t
  | .structV t _ => t
  | .interfaceNil => "interface"
  | .interfaceV _ => "interface"
  | .invalid => "invalid"
  | .boolV _ => "bool"
  | .intV _ => "int64"
  | .uintV _ => "uint64"
  | .floatV _ => "float64"
  | .stringV _ => "string"
  | .sliceV true _ => "[]uint8"
  | .sliceV false _ => "[]T"
  | .arrayV _ _ => "[N]T"
  | .mapV _ => "map[K]V"
  | .timeV _ => "time.Time"
  | .durationV _ => "time.Duration"
  | .errorV _ => "error"

/-- `v.Interface().(type)` matches `case error:` (parse.go:136, 336). -/
def isErrorValue : RValue → Bool
  | .errorV _ => true
  | _ => false

/-- Whether `v` is a wrapper the `dereference` loop of `value`
(parse.go:340-347) unwraps: kind `Interface` or `Ptr` with `!v.IsNil()`. -/
def isNonNilWrapper : RValue → Bool
  | .interfaceV _ => true
  | .ptrV _ _ => true
  | _ => false

/-- The `dereference` loop of `value` (parse.go:340-347): while the value is
a non-nil pointer or interface, replace it by `v.Elem()`. -/
def deref : RValue → RValue
  | .interfaceV w => deref w
  | .ptrV _ w => deref w
  | v => v

/-- `ValueParser.value` (parse.go:328-350) applied to one stack entry: an
invalid value is returned as is (parse.go:331), a value implementing
`error` is returned by identity before any unwrapping (parse.go:335-338),
anything else runs the dereference loop. -/
def resolve (v : RValue) : RValue :=
  match v with
  | .invalid => v
  | .errorV _ => v
  | _ => deref v

/-- `StructField` as used by parse.go: the field's name and its index path
(the embedding uses a single position into the struct's field list). -/
structure StructField where
  Name : String
  Index : Nat

/-- `valueParserContext` (parse.go:107-113).  The Go nil-slice / non-nil
slice distinction for `keys` and `fields` is load-bearing
(`ParseMapValue` branches on `ctx.keys != nil`), so both are `Option`. -/
structure valueParserContext where
  index : Nat
  length : Nat
  value : RValue
  keys : Option (List RValue)
  fields : Option (List StructField)

/-- `ValueParser` (parse.go:102-105); list heads are the stack tops. -/
structure ValueParser where
  stack : List RValue
  ctx : List valueParserContext

/-- `NewValueParser` (parse.go:116-120).  The Go argument `interface{}` is
embedded as `RValue` directly; passing Go `nil` corresponds to
`RValue.invalid` (an invalid `reflect.Value`). -/
def NewValueParser (v : RValue) : ValueParser :=
  { stack := [v], ctx := [] }

/-- `v.Bool()`: panics unless the kind is `Bool`. -/
def RValue.Bool? : RValue → Option Bool
  | .boolV b => some b
  | _ => none

/-- `v.Int()`: panics unless the kind is a signed integer; `time.Duration`
has kind `int64`, so it succeeds there too. -/
def RValue.Int? : RValue → Option Int
  | .intV n => some n
  | .durationV n => some n
  | _ => none

/-- `v.Uint()`: panics unless the kind is an unsigned integer. -/
def RValue.Uint? : RValue → Option Nat
  | .uintV n => some n
  | _ => none

/-- `v.Float()`: panics unless the kind is `Float32`/`Float64`. -/
def RValue.Float? : RValue → Option Int
  | .floatV x => some x
  | _ => none

/-- `v.String()`: never panics; on a non-`String` kind it returns the
placeholder `"<kind Value>"` (reflect's documented special case). -/
def RValue.String' : RValue → String
  | .stringV s => s
  | .invalid => "<invalid Value>"
  | v => "<" ++ v.kindName ++ " Value>"

/-- `v.Bytes()`: panics unless the value is a slice of bytes. -/
def RValue.Bytes? : RValue → Option (List RValue)
  | .sliceV true xs => some xs
  | _ => none

/-- `v.Interface().(time.Time)`: the type assertion panics unless the
dynamic type is exactly `time.Time`. -/
def RValue.TimeAssert? : RValue → Option Int
  | .timeV t => some t
  | _ => none

/-- `v.Interface().(time.Duration)`. -/
def RValue.DurationAssert? : RValue → Option Int
  | .durationV n => some n
  | _ => none

/-- `v.Interface().(error)`. -/
def RValue.ErrorAssert? : RValue → Option String
  | .errorV m => some m
  | _ => none

/-- `v.Len()`: defined for slices, arrays, maps and strings (channel buffer
length is not modelled; no code path of parse.go reaches it). -/
def RValue.Len? : RValue → Option Nat
  | .sliceV _ xs => some xs.length
  | .arrayV _ xs => some xs.length
  | .mapV es => some es.length
  | .stringV s => some s.length
  | _ => none

/-- `v.Index(i)`: element of a slice or array, panic when out of range
(string byte indexing is not modelled; parse.go never array-traverses a
value it classified `String`). -/
def RValue.Index? : RValue → Nat → Option RValue
  | .sliceV _ xs, i => xs[i]?
  | .arrayV _ xs, i => xs[i]?
  | _, _ => none

/-- Go map-key equality (`==`) restricted to the scalar comparable keys the
embedding models; composite comparable keys are not modelled. -/
def keyEq : RValue → RValue → Bool
  | .boolV a, .boolV b => a == b
  | .intV a, .intV b => a == b
  | .uintV a, .uintV b => a == b
  | .stringV a, .stringV b => a == b
  | .floatV a, .floatV b => a == b
  | .timeV a, .timeV b => a == b
  | .durationV a, .durationV b => a == b
  | _, _ => false

/-- `v.MapIndex(k)`: panics unless `v` is a map; a missing key yields the
zero `reflect.Value` (embedded as `RValue.invalid`), not a panic. -/
def RValue.MapIndex? : RValue → RValue → Option RValue
  | .mapV es, k => some ((es.find? fun e => keyEq e.1 k).elim RValue.invalid Prod.snd)
  | _, _ => none

/-- `v.FieldByIndex(i)`: panics unless `v` is a struct with field `i`. -/
def RValue.FieldByIndex? : RValue → Nat → Option RValue
  | .structV _ fs, i => (fs[i]?).map Prod.snd
  | _, _ => none

/-- Modelled from the spec: `LookupStruct` (the field-metadata
collaborator, not under `src/`) returns "an ordered list of fields, each
with a name and an accessor"; here: the struct's fields in declaration
order, each with its name and position. -/
def LookupStruct (fs : List (String × RValue)) : List StructField :=
  fs.enum.map fun e => { Name := e.2.1, Index := e.1 }

/-- Modelled from the spec: the collaborator's example omission predicate,
"omit when the field holds its zero/default value". -/
def omitZero (_f : StructField) (v : RValue) : Bool :=
  match v with
  | .invalid => true
  | .boolV b => !b
  | .intV n => n == 0
  | .uintV n => n == 0
  | .floatV x => x == 0
  | .stringV s => s == ""
  | .durationV n => n == 0
  | .ptrNil _ => true
  | .interfaceNil => true
  | _ => false

/-- `p.value()` (parse.go:328-329): resolve the top of the value stack;
`none` models the out-of-range panic on an empty stack. -/
def ValueParser.value (p : ValueParser) : Option RValue :=
  p.stack.head?.map resolve

/-- `p.push(v)` (parse.go:352-354). -/
def ValueParser.push (p : ValueParser) (v : RValue) : ValueParser :=
  { p with stack := v :: p.stack }

/-- `p.pop()` (parse.go:356-358); `none` models the slice-bounds panic. -/
def ValueParser.pop (p : ValueParser) : Option ValueParser :=
  match p.stack with
  | [] => none
  | _ :: t => some { p with stack := t }

/-- `p.pushContext(ctx)` (parse.go:360-362). -/
def ValueParser.pushContext (p : ValueParser) (c : valueParserContext) : ValueParser :=
  { p with ctx := c :: p.ctx }

/-- `p.popContext()` (parse.go:364-366). -/
def ValueParser.popContext (p : ValueParser) : Option ValueParser :=
  match p.ctx with
  | [] => none
  | _ :: t => some { p with ctx := t }

/-- `p.context()` (parse.go:368-370): the top context. -/
def ValueParser.context (p : ValueParser) : Option valueParserContext :=
  p.ctx.head?

/-- `p.context()` returns a pointer into the context slice; assignments
through it (the `ctx.index++` of the Next methods) write the top entry
back. -/
def ValueParser.setTopContext (p : ValueParser) (c : valueParserContext) : ValueParser :=
  match p.ctx with
  | [] => p
  | _ :: t => { p with ctx := c :: t }

/-- The classification switches of `ParseType` (parse.go:125-177): the
invalid check, then the `v.Interface()` type switch (identity matches for
`time.Time`, `time.Duration`, `error`), then the `v.Kind()` switch; any
kind without a case falls through to the unsupported-type return. -/
def classify : RValue → Ty × GoErr
  | .invalid => (.Nil, none)
  | .timeV _ => (.Time, none)
  | .durationV _ => (.Duration, none)
  | .errorV _ => (.Error, none)
  | .boolV _ => (.Bool, none)
  | .intV _ => (.Int, none)
  | .uintV _ => (.Uint, none)
  | .floatV _ => (.Float, none)
  | .stringV _ => (.String, none)
  | .sliceV elemUint8 _ =>
      if elemUint8 then (.Bytes, none) else (.Array, none)
  | .arrayV _ _ => (.Array, none)
  | .mapV _ => (.Map, none)
  | .structV _ _ => (.Map, none)
  | .interfaceNil => (.Nil, none)
  | v@(.interfaceV _) =>
      (.Nil, some ("objconv: unsupported type found in value parser: " ++ v.typeString))
  | v@(.ptrNil _) =>
      (.Nil, some ("objconv: unsupported type found in value parser: " ++ v.typeString))
  | v@(.ptrV _ _) =>
      (.Nil, some ("objconv: unsupported type found in value parser: " ++ v.typeString))
  | v@(.funcV _) =>
      (.Nil, some ("objconv: unsupported type found in value parser: " ++ v.typeString))
  | v@(.chanV _) =>
      (.Nil, some ("objconv: unsupported type found in value parser: " ++ v.typeString))

/-- `ParseType` (parse.go:122-178): classify the resolved top of the stack;
the parser state is untouched. -/
def ValueParser.ParseType (p : ValueParser) : Option ((Ty × GoErr) × ValueParser) :=
  (p.value).map fun v => (classify v, p)

/-- `ParseNil` (parse.go:180-182): unconditionally returns a nil error. -/
def ValueParser.ParseNil (p : ValueParser) : Option (GoErr × ValueParser) :=
  some (none, p)

/-- `ParseBool` (parse.go:184-187). -/
def ValueParser.ParseBool (p : ValueParser) : Option ((Bool × GoErr) × ValueParser) :=
  p.value.bind fun v => (v.Bool?).map fun b => ((b, none), p)

/-- `ParseInt` (parse.go:189-192). -/
def ValueParser.ParseInt (p : ValueParser) : Option ((Int × GoErr) × ValueParser) :=
  p.value.bind fun v => (v.Int?).map fun n => ((n, none), p)

/-- `ParseUint` (parse.go:194-197). -/
def ValueParser.ParseUint (p : ValueParser) : Option ((Nat × GoErr) × ValueParser) :=
  p.value.bind fun v => (v.Uint?).map fun n => ((n, none), p)

/-- `ParseFloat` (parse.go:199-202). -/
def ValueParser.ParseFloat (p : ValueParser) : Option ((Int × GoErr) × ValueParser) :=
  p.value.bind fun v => (v.Float?).map fun x => ((x, none), p)

/-- `ParseString` (parse.go:204-207): `[]byte(p.value().String())` never
panics once the stack is non-empty. -/
def ValueParser.ParseString (p : ValueParser) : Option ((String × GoErr) × ValueParser) :=
  p.value.map fun v => ((v.String', none), p)

/-- `ParseBytes` (parse.go:209-212). -/
def ValueParser.ParseBytes (p : ValueParser) : Option ((List RValue × GoErr) × ValueParser) :=
  p.value.bind fun v => (v.Bytes?).map fun bs => ((bs, none), p)

/-- `ParseTime` (parse.go:214-217). -/
def ValueParser.ParseTime (p : ValueParser) : Option ((Int × GoErr) × ValueParser) :=
  p.value.bind fun v => (v.TimeAssert?).map fun t => ((t, none), p)

/-- `ParseDuration` (parse.go:219-222). -/
def ValueParser.ParseDuration (p : ValueParser) : Option ((Int × GoErr) × ValueParser) :=
  p.value.bind fun v => (v.DurationAssert?).map fun n => ((n, none), p)

/-- `ParseError` (parse.go:224-227). -/
def ValueParser.ParseError (p : ValueParser) : Option ((String × GoErr) × ValueParser) :=
  p.value.bind fun v => (v.ErrorAssert?).map fun m => ((m, none), p)

/-- `ParseArrayBegin` (parse.go:229-239): record length and backing value in
a fresh context, and push element 0 when the length is non-zero. -/
def ValueParser.ParseArrayBegin (p : ValueParser) : Option ((Nat × GoErr) × ValueParser) :=
  match p.value with
  | none => none
  | some v =>
    match v.Len? with
    | none => none
    | some n =>
      let p1 := p.pushContext { index := 0, length := n, value := v, keys := none, fields := none }
      if n ≠ 0 then
        match v.Index? 0 with
        | none => none
        | some e => some ((n, none), p1.push e)
      else
        some ((n, none), p1)

/-- `ParseArrayEnd` (parse.go:241-250): pop the last pushed child when the
context's length is non-zero, then pop the context. -/
def ValueParser.ParseArrayEnd (p : ValueParser) : Option (GoErr × ValueParser) :=
  match p.context with
  | none => none
  | some c =>
    let step1 : Option ValueParser := if c.length ≠ 0 then p.pop else some p
    match step1 with
    | none => none
    | some p1 =>
      match p1.popContext with
      | none => none
      | some p2 => some (none, p2)

/-- `ParseArrayNext` (parse.go:252-258): increment the context's index
(written back through the context pointer), pop the previous top, push the
element at the new index. -/
def ValueParser.ParseArrayNext (p : ValueParser) : Option (GoErr × ValueParser) :=
  match p.context with
  | none => none
  | some c =>
    let c1 := { c with index := c.index + 1 }
    let p1 := p.setTopContext c1
    match p1.pop with
    | none => none
    | some p2 =>
      match c1.value.Index? c1.index with
      | none => none
      | some e => some (none, p2.push e)

/-- `ParseMapBegin` (parse.go:260-288).  The map branch snapshots
`v.MapKeys()` (the embedding's enumeration order is the entry order) and
sets the context's `length`.  The struct branch resolves the field list
through the spec-modelled `LookupStruct`, filters by the omission
predicate `omitP` (the external `omit` collaborator, passed as a
parameter), and — exactly as in the source — never sets the context's
`length` field, which stays at its zero value. -/
def ValueParser.ParseMapBegin (p : ValueParser) (omitP : StructField → RValue → Bool) :
    Option ((Nat × GoErr) × ValueParser) :=
  match p.value with
  | none => none
  | some v =>
    match v with
    | .mapV es =>
      let n := es.length
      let k := es.map Prod.fst
      let p1 := p.pushContext { index := 0, length := n, value := .mapV es, keys := some k, fields := none }
      match k with
      | [] => some ((n, none), p1)
      | k0 :: _ => some ((n, none), p1.push k0)
    | .structV nm fs =>
      let surviving := (LookupStruct fs).filter fun f =>
        match RValue.FieldByIndex? (.structV nm fs) f.Index with
        | some fv => !(omitP f fv)
        | none => false
      match surviving with
      | [] =>
        let c : valueParserContext :=
          { index := 0, length := 0, value := .structV nm fs, keys := none, fields := none }
        some ((0, none), p.pushContext c)
      | f0 :: rest =>
        let c : valueParserContext :=
          { index := 0, length := 0, value := .structV nm fs, keys := none, fields := some (f0 :: rest) }
        some (((f0 :: rest).length, none), (p.pushContext c).push (.stringV f0.Name))
    | _ => none

/-- `ParseMapEnd` (parse.go:290-299): identical to `ParseArrayEnd` — the
pop of the last pushed entity is guarded by `ctx.length != 0`. -/
def ValueParser.ParseMapEnd (p : ValueParser) : Option (GoErr × ValueParser) :=
  match p.context with
  | none => none
  | some c =>
    let step1 : Option ValueParser := if c.length ≠ 0 then p.pop else some p
    match step1 with
    | none => none
    | some p1 =>
      match p1.popContext with
      | none => none
      | some p2 => some (none, p2)

/-- `ParseMapValue` (parse.go:301-312): pop the current top (the key), then
push the value looked up for the current key (map backing) or current
field (struct backing). -/
def ValueParser.ParseMapValue (p : ValueParser) : Option (GoErr × ValueParser) :=
  match p.context with
  | none => none
  | some c =>
    match p.pop with
    | none => none
    | some p1 =>
      match c.keys with
      | some ks =>
        match ks[c.index]? with
        | none => none
        | some k =>
          match c.value.MapIndex? k with
          | none => none
          | some w => some (none, p1.push w)
      | none =>
        match c.fields with
        | none => none
        | some fs =>
          match fs[c.index]? with
          | none => none
          | some f =>
            match c.value.FieldByIndex? f.Index with
            | none => none
            | some w => some (none, p1.push w)

/-- `ParseMapNext` (parse.go:314-326): increment the context's index, pop
the previous top, push the key (map backing) or field name (struct
backing) at the new index. -/
def ValueParser.ParseMapNext (p : ValueParser) : Option (GoErr × ValueParser) :=
  match p.context with
  | none => none
  | some c =>
    let c1 := { c with index := c.index + 1 }
    let p1 := p.setTopContext c1
    match p1.pop with
    | none => none
    | some p2 =>
      match c1.keys with
      | some ks =>
        match ks[c1.index]? with
        | none => none
        | some k => some (none, p2.push k)
      | none =>
        match c1.fields with
        | none => none
        | some fs =>
          match fs[c1.index]? with
          | none => none
          | some f => some (none, p2.push (.stringV f.Name))

/-!  Concrete driver transcripts: each definition issues a protocol call
sequence that follows the grammar of the spec exactly and records the
results the external decoder would observe. -/

/-- The record of spec property 4: fields `A = 0`, `B = "x"`. -/
def structAB : RValue := .structV "T" [("A", .intV 0), ("B", .stringV "x")]

/-- Grammar-conformant traversal of `structAB` under the omit-zero
predicate: Type, MapBegin, key, MapValue, value, MapEnd (length 1, so no
MapNext).  Records the classified type, the returned length, the key and
value strings, and the final value and context stacks. -/
def structRun : Option (Ty × Nat × String × String × List RValue × List valueParserContext) := do
  let p0 := NewValueParser structAB
  let ((t0, _), p1) ← p0.ParseType
  let ((n, _), p2) ← p1.ParseMapBegin omitZero
  let ((k, _), p3) ← p2.ParseString
  let (_, p4) ← p3.ParseMapValue
  let ((w, _), p5) ← p4.ParseString
  let (_, p6) ← p5.ParseMapEnd
  return (t0, n, k, w, p6.stack, p6.ctx)

/-- A one-entry map value. -/
def mapK42 : RValue := .mapV [(.stringV "k", .intV 42)]

/-- MapBegin then MapValue on `mapK42`, recording the value stack before
and after the `ParseMapValue` call. -/
def mapValueRun : Option (List RValue × List RValue) := do
  let p0 := NewValueParser mapK42
  let (_, p1) ← p0.ParseMapBegin omitZero
  let (_, p2) ← p1.ParseMapValue
  return (p1.stack, p2.stack)

/-- The 3-element sequence of spec property 3. -/
def seq123 : RValue := .sliceV false [.intV 1, .intV 2, .intV 3]

/-- The array-replay transcript: Begin, Int, Next, Int, Next, Int, End. -/
def arrayReplayRun : Option (Nat × Int × Int × Int × List RValue × List valueParserContext) := do
  let p0 := NewValueParser seq123
  let ((n, _), p1) ← p0.ParseArrayBegin
  let ((a, _), p2) ← p1.ParseInt
  let (_, p3) ← p2.ParseArrayNext
  let ((b, _), p4) ← p3.ParseInt
  let (_, p5) ← p4.ParseArrayNext
  let ((c, _), p6) ← p5.ParseInt
  let (_, p7) ← p6.ParseArrayEnd
  return (n, a, b, c, p7.stack, p7.ctx)

/-- `ParseMapBegin` on `structAB` (no `ParseMapEnd`): records the returned
length, the enumerated key and the associated value. -/
def structOmitRun : Option (Nat × String × String) := do
  let p0 := NewValueParser structAB
  let ((n, _), p1) ← p0.ParseMapBegin omitZero
  let ((k, _), p2) ← p1.ParseString
  let (_, p3) ← p2.ParseMapValue
  let ((w, _), _p4) ← p3.ParseString
  return (n, k, w)

/-- The struct fields surviving the omission predicate, exactly as the
struct branch of `ParseMapBegin` computes them. -/
def survivingFields (omitP : StructField → RValue → Bool) (nm : String)
    (fs : List (String × RValue)) : List StructField :=
  (LookupStruct fs).filter fun f =>
    match RValue.FieldByIndex? (.structV nm fs) f.Index with
    | some fv => !(omitP f fv)
    | none => false

/-! ## Shared lemmas -/

/-- The dereference loop never stops on a non-nil wrapper: its result is a
terminal value (non-wrapper or nil wrapper). -/
theorem deref_flat : ∀ v : RValue, isNonNilWrapper (deref v) = false
  | .interfaceV w => by rw [show deref (.interfaceV w) = deref w from rfl]; exact deref_flat w
  | .ptrV t w => by rw [show deref (.ptrV t w) = deref w from rfl]; exact deref_flat w
  | .invalid => rfl
  | .boolV _ => rfl
  | .intV _ => rfl
  | .uintV _ => rfl
  | .floatV _ => rfl
  | .stringV _ => rfl
  | .sliceV _ _ => rfl
  | .arrayV _ _ => rfl
  | .mapV _ => rfl
  | .structV _ _ => rfl
  | .ptrNil _ => rfl
  | .interfaceNil => rfl
  | .timeV _ => rfl
  | .durationV _ => rfl
  | .errorV _ => rfl
  | .funcV _ => rfl
  | .chanV _ => rfl

/-- Common shape of the scalar getters (parse.go:184-227): whatever the
reflect accessor `g` does, the Go error result is the nil error. -/
theorem getterErrNone {α : Type} (o : Option RValue) (g : RValue → Option α) (p : ValueParser) :
    ((o.bind fun v => (g v).map fun x => ((x, (none : GoErr)), p)).all
      fun r => r.1.2.isNone) = true := by
  cases o with
  | none => rfl
  | some v => cases h : g v <;> simp [h, Option.all]

/-! ## Claims -/

/-- Claim C1 (code bug): driving the parser over the struct `{A: 0, B: "x"}`
exactly per the map grammar — one `ParseMapBegin` matched by one
`ParseMapEnd`, with the `ParseMapValue` call in between — terminates with
the context stack empty but the value stack holding TWO entries: the root
and the leaked field value `"x"`.  The struct branch of `ParseMapBegin`
(parse.go:270-285) never sets the context's `length`, so the
`ctx.length != 0` guard of `ParseMapEnd` (parse.go:293) skips the pop of
the last pushed child.  The spec's stack-balance invariant ("at completion
both the value stack and context stack are empty") is violated. -/
theorem c1_struct_stack_leak :
    structRun = some (.Map, 1, "B", "x", [.stringV "x", structAB], []) := by rfl

/-- Claim C2 counterexample: a nil pointer (`(*int)(nil)`) at the top of the
stack does NOT classify as `(Nil, nil error)`: the kind switch of
`ParseType` has no `reflect.Ptr` case, so the call falls through to the
unsupported-type return and reports an error. -/
theorem c2_counterexample :
    (NewValueParser (.ptrNil "*int")).ParseType =
      some ((Ty.Nil, some "objconv: unsupported type found in value parser: *int"),
        NewValueParser (.ptrNil "*int")) := by rfl

/-- Claim C2 (amended): only a nil interface value (and the invalid value of
a nil root) classifies as Nil with no error; a nil non-interface pointer
yields the Nil type together with an UnsupportedType error naming the
pointer type. -/
theorem c2_amended (p : ValueParser) :
    (p.value = some .interfaceNil → p.ParseType = some ((Ty.Nil, none), p)) ∧
    (p.value = some .invalid → p.ParseType = some ((Ty.Nil, none), p)) ∧
    (∀ t, p.value = some (.ptrNil t) →
      p.ParseType = some ((Ty.Nil,
        some ("objconv: unsupported type found in value parser: " ++ t)), p)) := by
  refine ⟨fun h => ?_, fun h => ?_, fun t h => ?_⟩ <;>
    simp [ValueParser.ParseType, h, classify, RValue.typeString]

/-- Witness for C2's amended theorem at the nil-interface input. -/
theorem c2_witness :
    (NewValueParser .interfaceNil).ParseType =
      some ((Ty.Nil, none), NewValueParser .interfaceNil) :=
  (c2_amended (NewValueParser .interfaceNil)).1 rfl

/-- Claim C3 counterexample: on the one-entry map `{"k": 42}`, after
`ParseMapBegin` the stack is `[key "k", root]`; after `ParseMapValue` it is
`[42, root]` — the key entry has been removed and replaced by the value,
refuting "pushes the value ... without removing or replacing any existing
stack entry". -/
theorem c3_counterexample :
    mapValueRun = some ([.stringV "k", mapK42], [.intV 42, mapK42]) := by rfl

/-- Claim C3 (amended): `ParseMapValue` pops the current top of the value
stack (the key) and pushes the value associated with the current key (map
lookup) or current field (indexed field access) in its place; the contexts
are untouched and the net stack depth is unchanged, the key remaining
tracked only via the context's index. -/
theorem c3_amended (p : ValueParser) (c : valueParserContext) (cs : List valueParserContext)
    (v : RValue) (vs : List RValue)
    (hctx : p.ctx = c :: cs) (hstk : p.stack = v :: vs) :
    (∀ ks k w, c.keys = some ks → ks[c.index]? = some k → c.value.MapIndex? k = some w →
      p.ParseMapValue = some (none, { stack := w :: vs, ctx := c :: cs })) ∧
    (∀ fs f w, c.keys = none → c.fields = some fs → fs[c.index]? = some f →
      c.value.FieldByIndex? f.Index = some w →
      p.ParseMapValue = some (none, { stack := w :: vs, ctx := c :: cs })) := by
  constructor
  · intro ks k w h1 h2 h3
    simp [ValueParser.ParseMapValue, ValueParser.context, ValueParser.pop, ValueParser.push,
      hctx, hstk, h1, h2, h3]
  · intro fs f w h0 h1 h2 h3
    simp [ValueParser.ParseMapValue, ValueParser.context, ValueParser.pop, ValueParser.push,
      hctx, hstk, h0, h1, h2, h3]

/-- The iteration context `ParseMapBegin` builds for `mapK42`. -/
def mapCtxExample : valueParserContext :=
  { index := 0, length := 1, value := mapK42, keys := some [.stringV "k"], fields := none }

/-- The parser state over `mapK42` right after `ParseMapBegin`. -/
def mapStateExample : ValueParser :=
  { stack := [.stringV "k", mapK42], ctx := [mapCtxExample] }

/-- Witness for C3's amended theorem on the `{"k": 42}` state. -/
theorem c3_witness :
    mapStateExample.ParseMapValue =
      some (none, { stack := [.intV 42, mapK42], ctx := [mapCtxExample] }) :=
  (c3_amended mapStateExample mapCtxExample [] (.stringV "k") [mapK42] rfl rfl).1
    [.stringV "k"] (.stringV "k") (.intV 42) rfl rfl rfl

/-- Claim C4 counterexample: the fixed-length one-element byte array
`[1]byte{0}` classifies as `Array`, not `Bytes` — the single-byte-element
check of `ParseType` exists only in the `reflect.Slice` case
(parse.go:156-159), while `reflect.Array` (parse.go:162-163) returns
`Array` unconditionally. -/
theorem c4_counterexample :
    (NewValueParser (.arrayV true [.uintV 0])).ParseType =
      some ((Ty.Array, none), NewValueParser (.arrayV true [.uintV 0])) := by rfl

/-- Claim C4 (amended): a variable-length sequence (slice) of single-byte
elements classifies as Bytes; a slice of any other element type classifies
as Array; a fixed-length sequence (array) classifies as Array regardless of
its element type. -/
theorem c4_amended (p : ValueParser) :
    (∀ xs, p.value = some (.sliceV true xs) → p.ParseType = some ((Ty.Bytes, none), p)) ∧
    (∀ xs, p.value = some (.sliceV false xs) → p.ParseType = some ((Ty.Array, none), p)) ∧
    (∀ b xs, p.value = some (.arrayV b xs) → p.ParseType = some ((Ty.Array, none), p)) := by
  refine ⟨fun xs h => ?_, fun xs h => ?_, fun b xs h => ?_⟩ <;>
    simp [ValueParser.ParseType, h, classify]

/-- Witness for C4's amended theorem at the empty byte slice. -/
theorem c4_witness :
    (NewValueParser (.sliceV true [])).ParseType =
      some ((Ty.Bytes, none), NewValueParser (.sliceV true [])) :=
  (c4_amended (NewValueParser (.sliceV true []))).1 [] rfl

/-- Claim C5: the array replay.  The concrete transcript over `[1,2,3]`
returns length 3 and the integers 1, 2, 3 with `ParseArrayEnd` succeeding
after exactly two `ParseArrayNext` calls; generally, `ParseArrayBegin` on a
non-empty sequence pushes the element at index 0 onto a fresh context, and
`ParseArrayNext` increments the context's index, pops the previous top and
pushes the element at the new index. -/
theorem c5_array_replay :
    arrayReplayRun = some (3, 1, 2, 3, [seq123], []) ∧
    (∀ (p : ValueParser) (v : RValue) (n : Nat) (x : RValue),
      p.value = some v → v.Len? = some n → n ≠ 0 → v.Index? 0 = some x →
      p.ParseArrayBegin = some ((n, none),
        (p.pushContext { index := 0, length := n, value := v, keys := none, fields := none }).push x)) ∧
    (∀ (p : ValueParser) (c : valueParserContext) (cs : List valueParserContext)
      (v : RValue) (vs : List RValue) (e : RValue), p.ctx = c :: cs → p.stack = v :: vs →
      c.value.Index? (c.index + 1) = some e →
      p.ParseArrayNext = some (none,
        { stack := e :: vs, ctx := { c with index := c.index + 1 } :: cs })) := by
  refine ⟨by rfl, ?_, ?_⟩
  · intro p v n x hv hn h0 hx
    simp [ValueParser.ParseArrayBegin, ValueParser.pushContext, ValueParser.push, hv, hn, h0, hx]
  · intro p c cs v vs e hctx hstk he
    simp [ValueParser.ParseArrayNext, ValueParser.context, ValueParser.setTopContext,
      ValueParser.pop, ValueParser.push, hctx, hstk, he]

/-- Witness for C5's general `ParseArrayBegin` conjunct on `[1,2,3]`. -/
theorem c5_witness :
    (NewValueParser seq123).ParseArrayBegin =
      some ((3, none), ((NewValueParser seq123).pushContext
        { index := 0, length := 3, value := seq123, keys := none, fields := none }).push (.intV 1)) :=
  c5_array_replay.2.1 (NewValueParser seq123) seq123 3 (.intV 1) rfl rfl (by decide) rfl

/-- Claim C6: classifying a value whose dereferenced category is outside the
vocabulary (a function or channel value) returns an UnsupportedType error
whose message names the offending underlying type, and the parser state —
hence both the value stack and the context stack — is returned unchanged. -/
theorem c6_unsupported (p : ValueParser) :
    (∀ t, p.value = some (.funcV t) → p.ParseType =
      some ((Ty.Nil, some ("objconv: unsupported type found in value parser: " ++ t)), p)) ∧
    (∀ t, p.value = some (.chanV t) → p.ParseType =
      some ((Ty.Nil, some ("objconv: unsupported type found in value parser: " ++ t)), p)) := by
  refine ⟨fun t h => ?_, fun t h => ?_⟩ <;>
    simp [ValueParser.ParseType, h, classify, RValue.typeString]

/-- Witness for C6 at a concrete function value. -/
theorem c6_witness :
    (NewValueParser (.funcV "func(int)")).ParseType =
      some ((Ty.Nil, some "objconv: unsupported type found in value parser: func(int)"),
        NewValueParser (.funcV "func(int)")) :=
  (c6_unsupported (NewValueParser (.funcV "func(int)"))).1 "func(int)" rfl

/-- Claim C7: struct field omission.  Concretely, on `{A: 0, B: "x"}` with
the omit-zero predicate, `ParseMapBegin` returns length 1, the sole
enumerated key is `B` and `ParseMapValue` yields its value `"x"`.
Generally, on a struct value `ParseMapBegin` returns exactly the number of
fields whose omission predicate is false and, when that count is non-zero,
pushes the name of the first surviving field. -/
theorem c7_field_omission :
    structOmitRun = some (1, "B", "x") ∧
    (∀ (p : ValueParser) (omitP : StructField → RValue → Bool) (nm : String)
      (fs : List (String × RValue)), p.value = some (.structV nm fs) →
      (∀ (f0 : StructField) (rest : List StructField), survivingFields omitP nm fs = f0 :: rest →
        p.ParseMapBegin omitP = some (((f0 :: rest).length, none),
          (p.pushContext { index := 0, length := 0, value := .structV nm fs, keys := none, fields := some (f0 :: rest) }).push (.stringV f0.Name))) ∧
      (survivingFields omitP nm fs = [] →
        p.ParseMapBegin omitP = some ((0, none),
          p.pushContext { index := 0, length := 0, value := .structV nm fs, keys := none, fields := none }))) := by
  refine ⟨by rfl, ?_⟩
  intro p omitP nm fs hv
  constructor
  · intro f0 rest hs
    simp only [survivingFields] at hs
    simp [ValueParser.ParseMapBegin, ValueParser.pushContext, ValueParser.push, hv, hs]
  · intro hs
    simp only [survivingFields] at hs
    simp [ValueParser.ParseMapBegin, ValueParser.pushContext, hv, hs]

/-- Witness for C7 on `{A: 0, B: "x"}` with the omit-zero predicate. -/
theorem c7_witness :
    (NewValueParser structAB).ParseMapBegin omitZero =
      some ((1, none), ((NewValueParser structAB).pushContext
        { index := 0, length := 0, value := structAB, keys := none, fields := some [{ Name := "B", Index := 1 }] }).push (.stringV "B")) :=
  ((c7_field_omission.2 (NewValueParser structAB) omitZero "T"
      [("A", .intV 0), ("B", .stringV "x")] rfl).1
    { Name := "B", Index := 1 } [] rfl)

/-- Claim C8: `ParseType` is idempotent — it never mutates the parser state,
so repeated calls without an intervening extraction or traversal call
return the same `(Type, error)` result. -/
theorem c8_parsetype_idempotent (p q : ValueParser) (r : Ty × GoErr)
    (h : p.ParseType = some (r, q)) : q = p ∧ q.ParseType = some (r, q) := by
  cases hv : p.value with
  | none => simp [ValueParser.ParseType, hv] at h
  | some v =>
    simp only [ValueParser.ParseType, hv, Option.map_some'] at h
    rw [Option.some.injEq, Prod.mk.injEq] at h
    obtain ⟨hr, hq⟩ := h
    subst hq
    refine ⟨rfl, ?_⟩
    simp only [ValueParser.ParseType, hv, Option.map_some', hr]

/-- Witness for C8 at a boolean root. -/
theorem c8_witness :
    NewValueParser (.boolV true) = NewValueParser (.boolV true) ∧
    (NewValueParser (.boolV true)).ParseType =
      some ((Ty.Bool, none), NewValueParser (.boolV true)) :=
  c8_parsetype_idempotent (NewValueParser (.boolV true)) (NewValueParser (.boolV true))
    (Ty.Bool, none) rfl

/-- Claim C9: the value-resolution step.  `deref` (a total structural
recursion, hence terminating on every — necessarily acyclic — embedded
value) unwraps pointer/interface wrapper layers one at a time, is the
identity on anything that is not a non-nil wrapper (first non-wrapper or
nil wrapper stops it), values implementing `error` are returned by
`resolve` before any unwrapping, and the resolved result is never a
non-nil wrapper. -/
theorem c9_value_resolution (v : RValue) :
    (∀ w, deref (.interfaceV w) = deref w) ∧
    (∀ t w, deref (.ptrV t w) = deref w) ∧
    (isNonNilWrapper v = false → deref v = v) ∧
    (isErrorValue v = true → resolve v = v) ∧
    isNonNilWrapper (resolve v) = false := by
  refine ⟨fun w => rfl, fun t w => rfl, ?_, ?_, ?_⟩
  · intro h
    cases v <;> first | rfl | simp [isNonNilWrapper] at h
  · intro h
    cases v <;> first | rfl | simp [isErrorValue] at h
  · cases v <;> first | rfl | exact deref_flat _

/-- Witness for C9: the error value is returned by identity, and a
non-wrapper value is a fixed point of the dereference loop. -/
theorem c9_witness :
    resolve (.errorV "boom") = .errorV "boom" ∧ deref (.intV 7) = .intV 7 :=
  ⟨(c9_value_resolution (.errorV "boom")).2.2.2.1 rfl,
   (c9_value_resolution (.intV 7)).2.2.1 rfl⟩

/-- Claim C10 counterexample: `ParseString` invoked while the current value
is a `bool` — the wrong classified Type — does NOT fault: it returns
normally (reflect's `Value.String` never panics, yielding a placeholder)
and its error result is nil, refuting "a getter invoked for the wrong
classified Type faults (panics) rather than returning". -/
theorem c10_counterexample :
    (NewValueParser (.boolV true)).ParseString =
      some (("<bool Value>", none), NewValueParser (.boolV true)) := by rfl

/-- Claim C10 (amended): every scalar getter returns a nil error on every
call on which it returns at all — the reference parser never reports a
TypeMismatch through its error result.  (Wrong-type calls panic for
ParseBool/Int/Uint/Float/Bytes/Time/Duration/Error, while ParseString
returns a kind-formatted placeholder with nil error and ParseNil always
succeeds.) -/
theorem c10_amended (p : ValueParser) :
    ((p.ParseNil).all fun r => r.1.isNone) = true ∧
    ((p.ParseBool).all fun r => r.1.2.isNone) = true ∧
    ((p.ParseInt).all fun r => r.1.2.isNone) = true ∧
    ((p.ParseUint).all fun r => r.1.2.isNone) = true ∧
    ((p.ParseFloat).all fun r => r.1.2.isNone) = true ∧
    ((p.ParseString).all fun r => r.1.2.isNone) = true ∧
    ((p.ParseBytes).all fun r => r.1.2.isNone) = true ∧
    ((p.ParseTime).all fun r => r.1.2.isNone) = true ∧
    ((p.ParseDuration).all fun r => r.1.2.isNone) = true ∧
    ((p.ParseError).all fun r => r.1.2.isNone) = true := by
  refine ⟨rfl, getterErrNone p.value RValue.Bool? p, getterErrNone p.value RValue.Int? p,
    getterErrNone p.value RValue.Uint? p, getterErrNone p.value RValue.Float? p, ?_,
    getterErrNone p.value RValue.Bytes? p, getterErrNone p.value RValue.TimeAssert? p,
    getterErrNone p.value RValue.DurationAssert? p, getterErrNone p.value RValue.ErrorAssert? p⟩
  cases h : p.value <;> simp [ValueParser.ParseString, h, Option.all]
